import Mathlib

set_option maxHeartbeats 1000000

/-!
Shallow embedding of the findlaw/elitigation scraper pipeline
(`src/us/caselaw_index.js`, `src/us/acts_index.js`, `src/utils/cronTracker.js`,
`src/src/index.js`), restricted to the crawl-and-dedup core: the Fetcher
(`fetchWithRetry`), the Existence Oracle (`checkIfUrlProcessed`,
`checkIfCitationExists`, `checkSectionExistsByUrl`), the Ingest Writer
(`insertCaseLaw` in its US and Singapore variants) and the Crawl Driver
loops (`scrapFindLaws`, `scrapeSingaporeCaseLaws`).

Network and database effects are made explicit: every external call is
driven by an oracle argument giving that call's outcome, and the durable
store is a `Store` value threaded through the writers.  Wall-clock sleeps
are recorded as trace events.  Timestamps (`processing_date`) and the
`country` column of ledger rows are omitted: no claim mentions them.
-/

namespace Scraper

/-- Outcome of one `fetch(url)` call inside `fetchWithRetry`: an HTTP
response carrying its `ok` flag and status, or a thrown network
exception (the JS `fetch` promise rejecting). -/
inductive FetchOutcome
  | resp (ok : Bool) (status : Nat)
  | throwEx (msg : String)
  deriving DecidableEq, Repr

/-- What `fetchWithRetry` hands back when it does not raise: the ok
response itself, or the terminal-failure marker object
`\x7b url, status: "error", error \x7d` built after the loop. -/
inductive FetchResult
  | response (status : Nat)
  | marker (url : String) (status : String) (error : String)
  deriving DecidableEq, Repr

/-- Trace events of one `fetchWithRetry` run: the i-th `fetch` attempt,
and each `sleep(delayMs)` between attempts. -/
inductive FetchEv
  | attempt (i : Nat)
  | sleepFor (ms : Nat)
  deriving DecidableEq, Repr

/-- The `for (let i = 0; i < retries; i++)` loop of `fetchWithRetry`
(identical in `src/us/caselaw_index.js`, `src/us/acts_index.js` and
`src/utils/cronTracker.js`).  `remaining` is `retries - i`; the body
returns the response as soon as `response.ok`, sleeps `delayMs` before
every attempt except the last, and falls through to the marker object
once the loop ends.  A thrown `fetch` exception is not caught anywhere
in the function, so it aborts the loop and propagates (`Except.error`). -/
def fetchWithRetryGo (oracle : Nat → FetchOutcome) (url : String) (delayMs : Nat) :
    Nat → Nat → Except String FetchResult × List FetchEv
  | 0, _ => (Except.ok (FetchResult.marker url "error" "Failed after multiple retries"), [])
  | remaining + 1, i =>
    match oracle i with
    | FetchOutcome.throwEx msg => (Except.error msg, [FetchEv.attempt i])
    | FetchOutcome.resp ok status =>
      if ok then
        (Except.ok (FetchResult.response status), [FetchEv.attempt i])
      else if remaining = 0 then
        (Except.ok (FetchResult.marker url "error" "Failed after multiple retries"),
          [FetchEv.attempt i])
      else
        let r := fetchWithRetryGo oracle url delayMs remaining (i + 1)
        (r.1, FetchEv.attempt i :: FetchEv.sleepFor delayMs :: r.2)

/-- Function `fetchWithRetry(url, retries, delayMs)` with explicit retry budget. -/
def fetchWithRetryWith (oracle : Nat → FetchOutcome) (url : String)
    (retries delayMs : Nat) : Except String FetchResult × List FetchEv :=
  fetchWithRetryGo oracle url delayMs retries 0

/-- Function `fetchWithRetry(url)` at its default parameters `retries = 5`,
`delayMs = 2000`. -/
def fetchWithRetry (oracle : Nat → FetchOutcome) (url : String) :
    Except String FetchResult × List FetchEv :=
  fetchWithRetryWith oracle url 5 2000

/-- A fetch oracle whose very first attempt raises a network exception. -/
def throwingOracle : Nat → FetchOutcome :=
  fun _ => FetchOutcome.throwEx "ECONNRESET"

/-- The case payload assembled by the drivers before calling
`insertCaseLaw`: `court_name, case_name, case_no, date, case_text,
citation` (the constant `country` column is added at the insert). -/
structure CaseData where
  court_name : String
  case_name : String
  case_no : String
  date : String
  case_text : String
  citation : String
  deriving DecidableEq, Repr

/-- One row of the `caselaw_scraping_urls` ledger table as written by the
scrapers: keyed by `url` (`onConflict: 'url'` upsert), with `case_id`,
`processed`, `status` and `error_message` columns.  The
`processing_date` timestamp and the Singapore `country` column are
omitted (no claim mentions them). -/
structure LedgerEntry where
  url : String
  case_id : Option Nat
  processed : Bool
  status : String
  error_message : Option String
  deriving DecidableEq, Repr

/-- The durable store visible to one scraper: the record table
(`caselaw_us` resp. `caselaw_singapore`) as id-tagged rows in insertion
order, the url-keyed ledger, and the next record id the database will
allocate. -/
structure Store where
  cases : List (Nat × CaseData)
  ledger : List LedgerEntry
  nextId : Nat
  deriving DecidableEq, Repr

/-- The empty store. -/
def emptyStore : Store := ⟨[], [], 1⟩

/-- The `upsert(..., onConflict: 'url')` call on the ledger table: replace the
existing row with the same `url`, otherwise append. -/
def upsertLedger : List LedgerEntry → LedgerEntry → List LedgerEntry
  | [], e => [e]
  | x :: xs, e => if x.url = e.url then e :: xs else x :: upsertLedger xs e

/-- The url column of every ledger row, in order. -/
def ledgerKeys (l : List LedgerEntry) : List String :=
  l.map LedgerEntry.url

/-- Outcome of one database insert as destructured by the callers:
either the inserted row's payload or a query error message. -/
inductive DbRes (α : Type)
  | ok : α → DbRes α
  | err : String → DbRes α
  deriving DecidableEq, Repr

/-- The message of the TypeError raised by `data.id` when the record
insert failed and `data` is `null` (US `insertCaseLaw` reads `data.id`
before checking `error`). -/
def nullIdMessage : String := "Cannot read properties of null"

/-- Ledger row written on the success path:
`\x7b url, case_id, processed: true, status: 'success' \x7d`. -/
def successEntry (url : String) (id : Nat) : LedgerEntry :=
  ⟨url, some id, true, "success", none⟩

/-- Ledger row written by the catch block:
`\x7b url, processed: false, status: 'error', error_message \x7d`. -/
def errorEntry (url msg : String) : LedgerEntry :=
  ⟨url, none, false, "error", some msg⟩

/-- The catch block's ledger upsert, common to both `insertCaseLaw`
variants: it upserts the error row for `url` and *discards* the
returned `\x7b error \x7d` object, so when that upsert itself fails
(`errUpsertErr = some _`) nothing is written and nothing is reported. -/
def catchBlockUpsert (st : Store) (url msg : String) (errUpsertErr : Option String) : Store :=
  match errUpsertErr with
  | some _ => st
  | none => { st with ledger := upsertLedger st.ledger (errorEntry url msg) }

/-- Function `insertCaseLaw(caseData, sourceUrl)` of `src/us/caselaw_index.js`.
The commented-out existence check is gone from the live code: the
function inserts into `caselaw_us` unconditionally, then upserts the
success ledger row.  `insRes` is the record insert's outcome,
`succUpsertErr` / `errUpsertErr` the error fields returned by the two
ledger upserts.  When the record insert fails, `data` is `null` and
`data.id` raises before the success upsert runs; the catch block then
upserts the error row and rethrows. -/
def insertCaseLawUS (st : Store) (cd : CaseData) (sourceUrl : String)
    (insRes : DbRes Unit) (succUpsertErr errUpsertErr : Option String) :
    Except String Nat × Store :=
  match insRes with
  | DbRes.err _ =>
    (Except.error nullIdMessage, catchBlockUpsert st sourceUrl nullIdMessage errUpsertErr)
  | DbRes.ok _ =>
    let id := st.nextId
    let st1 : Store := { st with cases := st.cases ++ [(id, cd)], nextId := id + 1 }
    match succUpsertErr with
    | none =>
      (Except.ok id, { st1 with ledger := upsertLedger st1.ledger (successEntry sourceUrl id) })
    | some e =>
      (Except.error e, catchBlockUpsert st1 sourceUrl e errUpsertErr)

/-- One element of the `results` array drained by `scrapFindLaws`: the
scrape succeeded with a case payload, or carries `status: 'error'`
(fetch failure, terminal retry marker, or thrown exception). -/
inductive ScrapedResult
  | success (cd : CaseData)
  | error (msg : String)
  deriving DecidableEq, Repr

/-- Whether a drained result is a scrape success. -/
def ScrapedResult.isSuccess : ScrapedResult → Bool
  | ScrapedResult.success _ => true
  | ScrapedResult.error _ => false

/-- The `//Storing in DB` loop of `scrapFindLaws`
(`src/us/caselaw_index.js`): results with `status === 'error'` are
logged and skipped with `continue`; for the rest `insertCaseLaw` is
called, its throw caught and the loop continues.  `insO` gives each
url's record-insert outcome; the ledger store itself is modelled as
available (both ledger upserts succeed). -/
def drainBatch (insO : String → DbRes Unit) : Store → List (String × ScrapedResult) → Store
  | st, [] => st
  | st, (_, ScrapedResult.error _) :: rest => drainBatch insO st rest
  | st, (u, ScrapedResult.success cd) :: rest =>
    drainBatch insO (insertCaseLawUS st cd u (insO u) none none).2 rest

/-- One `cloudFlareBatch` of `scrapFindLaws`: every url in the batch is
dispatched to the Fetcher (`fetchO` gives the scrape outcome per url),
then the results are drained sequentially into the store. -/
def runCloudFlareBatch (fetchO : String → ScrapedResult) (insO : String → DbRes Unit)
    (st : Store) (urls : List String) : Store :=
  drainBatch insO st (urls.map (fun u => (u, fetchO u)))

/-- JavaScript `String.prototype.trim()`: drop whitespace from both
ends of the string. -/
def jsTrim (s : String) : String :=
  ⟨((s.data.dropWhile Char.isWhitespace).reverse.dropWhile Char.isWhitespace).reverse⟩

/-- Function `checkIfCitationExists(citation)` of `src/utils/cronTracker.js`:
`if (!citation) return false`, then a `maybeSingle` lookup of
`caselaw_singapore` by the citation column. -/
def checkIfCitationExists (st : Store) (citation : String) : Bool :=
  if citation = "" then false
  else st.cases.any (fun r => r.2.citation = citation)

/-- Caller-visible outcome of the Singapore `insertCaseLaw`: the two
`return null` skips, a successful insert, or a rethrown error. -/
inductive SgInsertResult
  | skippedDup
  | skippedEmpty
  | inserted (id : Nat)
  | raised (msg : String)
  deriving DecidableEq, Repr

/-- Function `insertCaseLaw(caseData, sourceUrl)` of `src/utils/cronTracker.js`
(Singapore): skip when the citation is truthy and already present, skip
when `caseData.case_text.trim().length == 0`, otherwise insert into
`caselaw_singapore` (`if (error) throw error` fires before any ledger
write), then upsert the success ledger row; the catch block upserts the
error row (result discarded) and rethrows. -/
def insertCaseLawSG (st : Store) (cd : CaseData) (sourceUrl : String)
    (insRes : DbRes Unit) (succUpsertErr errUpsertErr : Option String) :
    SgInsertResult × Store :=
  if cd.citation ≠ "" ∧ checkIfCitationExists st cd.citation = true then
    (SgInsertResult.skippedDup, st)
  else if (jsTrim cd.case_text).length = 0 then
    (SgInsertResult.skippedEmpty, st)
  else
    match insRes with
    | DbRes.err m => (SgInsertResult.raised m, catchBlockUpsert st sourceUrl m errUpsertErr)
    | DbRes.ok _ =>
      let id := st.nextId
      let st1 : Store := { st with cases := st.cases ++ [(id, cd)], nextId := id + 1 }
      match succUpsertErr with
      | none =>
        (SgInsertResult.inserted id,
          { st1 with ledger := upsertLedger st1.ledger (successEntry sourceUrl id) })
      | some e => (SgInsertResult.raised e, catchBlockUpsert st1 sourceUrl e errUpsertErr)

/-- Two scrape payloads from distinct locators sharing citation "X". -/
def cdRowX : CaseData := ⟨"High Court", "A v B", "No 1", "2024-01-01", "body one", "X"⟩

/-- Second payload with the same citation "X" as `cdRowX`. -/
def cdRowY : CaseData := ⟨"High Court", "C v D", "No 2", "2024-01-02", "body two", "X"⟩

/-- A payload whose case text is whitespace-only. -/
def cdBlank : CaseData := ⟨"High Court", "E v F", "No 3", "2024-01-03", "  ", "Z"⟩

/-- A payload whose citation field is empty. -/
def cdNoCitation : CaseData := ⟨"High Court", "G v H", "No 4", "2024-01-04", "body four", ""⟩

/-- A scrape oracle that succeeds with `cdRowX` for every url. -/
def fetchAlwaysOk : String → ScrapedResult := fun _ => ScrapedResult.success cdRowX

/-- A record-insert oracle for an available database. -/
def insAlwaysOk : String → DbRes Unit := fun _ => DbRes.ok ()

/-- Function `checkIfUrlProcessed(url)` of `src/utils/cronTracker.js` (Singapore):
its first statement is `return false;`, so the Supabase lookup written
below it is dead code and the function reports every url as
not-yet-processed regardless of the store. -/
def checkIfUrlProcessedSG (_st : Store) (_url : String) : Bool :=
  false

/-- The filter phase of `scrapeSingaporeCaseLaws`: map each url through
`checkIfUrlProcessed`, keep the ones not reported processed. -/
def urlsToProcessSG (st : Store) (urls : List String) : List String :=
  ((urls.map (fun u => (u, checkIfUrlProcessedSG st u))).filter
    (fun p => !p.2)).map (fun p => p.1)

/-- The store left by a first Singapore run that ingested the
citation-less case `cdNoCitation`. -/
def run1Store : Store :=
  (insertCaseLawSG emptyStore cdNoCitation "https://www.elitigation.sg/gd/s/1"
    (DbRes.ok ()) none none).2

/-- The `data`/`error` pair destructured from a supabase
`maybeSingle`/`single` query; the client nulls `data` whenever `error`
is set. -/
structure SbMaybeSingle where
  data : Option Unit
  error : Option String
  deriving DecidableEq, Repr

/-- PostgREST's "no (single) row" error code, special-cased by the checks. -/
def PGRST116 : String := "PGRST116"

/-- Function `checkIfUrlProcessed(url)` of `src/us/caselaw_index.js`, as a
function of the ledger query's outcome: a non-PGRST116 error returns
false, otherwise the result is `!!data`. -/
def checkIfUrlProcessedUS (r : SbMaybeSingle) : Bool :=
  match r.error with
  | some code => if code ≠ PGRST116 then false else r.data.isSome
  | none => r.data.isSome

/-- The try block of `checkSectionExistsByUrl` of `src/us/acts_index.js`:
a PGRST116 error means no row (`return false`), any other error is
thrown, otherwise the result is `!!data`. -/
def checkSectionExistsByUrlBody (r : SbMaybeSingle) : Except String Bool :=
  match r.error with
  | some code => if code = PGRST116 then Except.ok false else Except.error code
  | none => Except.ok r.data.isSome

/-- Function `checkSectionExistsByUrl(url)`: the catch block turns any thrown
lookup error into `false` ("assume it doesn't exist"). -/
def checkSectionExistsByUrl (r : SbMaybeSingle) : Bool :=
  match checkSectionExistsByUrlBody r with
  | Except.ok b => b
  | Except.error _ => false

/-- The batching loop `for (let i = 0; ...; i += size)` over
`slice(i, i + size)`: split a url list into consecutive chunks of
`n` elements.  `fuel` starts at the list length, which bounds the
number of iterations whenever `n > 0`. -/
def chunksGo (n : Nat) : Nat → List String → List (List String)
  | _, [] => []
  | 0, _ :: _ => []
  | fuel + 1, a :: l => (a :: l).take n :: chunksGo n fuel ((a :: l).drop n)

/-- The consecutive `n`-sized batches of a url list (`n > 0`, as in
every CONFIG of the repository). -/
def chunks (n : Nat) (l : List String) : List (List String) :=
  if n = 0 then [] else chunksGo n l.length l

/-- Observable events of one listing page of `scrapFindLaws`: an
existence check issued for a url during the filter phase, and a Fetcher
dispatch (`/scrape/cases` request) for a url. -/
inductive PEvent
  | check (url : String)
  | dispatch (url : String)
  deriving DecidableEq, Repr

/-- The per-page body of `scrapFindLaws` (`src/us/caselaw_index.js`) as
an event trace: the outer loop walks `filterBatchSize`-sized batches,
checks each batch's urls against `checkIfUrlProcessed` (`proc` gives
each url's answer), filters the processed ones out, and — still inside
the same outer iteration — dispatches the survivors to the Fetcher in
`cloudFlareBatchSize`-sized batches. -/
def scrapFindLawsPage (proc : String → Bool) (fB cB : Nat) (pageUrls : List String) :
    List PEvent :=
  ((chunks fB pageUrls).map (fun filterBatch =>
    (filterBatch.map PEvent.check) ++
      ((chunks cB (filterBatch.filter (fun u => !(proc u)))).map
        (fun b => b.map PEvent.dispatch)).flatten)).flatten

/-- Whether a page event is an existence check. -/
def PEvent.isCheck : PEvent → Bool
  | PEvent.check _ => true
  | PEvent.dispatch _ => false

/-- A five-locator listing page. -/
def fiveUrls : List String := ["u1", "u2", "u3", "u4", "u5"]

/-- Outcome of a page-listing fetch in `scrapeSingaporeCaseLaws`:
`!casesResponse.ok`, or an ok response whose json is the url list. -/
inductive PageFetch
  | httpFail
  | ok (urls : List String)
  deriving DecidableEq, Repr

/-- Why the pagination loop stopped: empty locator array (the
"No cases found ... stopping pagination" break), a failed listing fetch
(`hasMorePages = false`), or the page index passing `CONFIG.maxPages`. -/
inductive StopReason
  | exhausted
  | httpError
  | limit
  deriving DecidableEq, Repr

/-- The `while (hasMorePages && pageIndex <= CONFIG.maxPages)` loop of
`scrapeSingaporeCaseLaws`, returning the page indices requested from
the listing source and the stop reason.  One iteration handles one
index, so `maxPages + 1 - startIdx` iterations of fuel are exact: fuel
runs out precisely when `idx` has passed `maxPages`, the `limit` stop. -/
def paginateGo (oracle : Nat → PageFetch) (maxPages : Nat) :
    Nat → Nat → List Nat × StopReason
  | 0, _ => ([], StopReason.limit)
  | fuel + 1, idx =>
    if maxPages < idx then ([], StopReason.limit)
    else
      match oracle idx with
      | PageFetch.httpFail => ([idx], StopReason.httpError)
      | PageFetch.ok [] => ([idx], StopReason.exhausted)
      | PageFetch.ok (_ :: _) =>
        let r := paginateGo oracle maxPages fuel (idx + 1)
        (idx :: r.1, r.2)

/-- The pagination of `scrapeSingaporeCaseLaws` from `startIdx`
(the source starts at 340) under `CONFIG.maxPages`. -/
def scrapeSingaporePagination (oracle : Nat → PageFetch) (maxPages startIdx : Nat) :
    List Nat × StopReason :=
  paginateGo oracle maxPages (maxPages + 1 - startIdx) startIdx

/-- A listing source that is empty at index 340 and non-empty elsewhere. -/
def sgEmptyAt340 : Nat → PageFetch :=
  fun i => if i = 340 then PageFetch.ok [] else PageFetch.ok ["/gd/s/2024_SGHC_1"]

/-- Outcome of one `fetchWithRetry` + json call of the Singapore driver
for a given `isOld` flag: an ok response parsed to a payload, the
terminal retry marker, or a propagated exception. -/
inductive AttemptOutcome
  | okData (cd : CaseData)
  | marker (emsg : String)
  | raisedEx (emsg : String)
  deriving DecidableEq, Repr

/-- Result shape of one element of `fetchPromises` in
`scrapeSingaporeCaseLaws`: spread payload with the url, or the
`status: 'error'` object. -/
inductive SgScrapeOutcome
  | data (cd : CaseData) (url : String)
  | errorResult (url : String) (emsg : String)
  deriving DecidableEq, Repr

/-- The `fetchPromises` callback of `scrapeSingaporeCaseLaws`
(`src/utils/cronTracker.js`): first scrape without `isOld`; when that
succeeds but `case_text` is missing or whitespace-only, scrape the same
locator once more with `isOld=true` and, if the second response is ok,
use its data (otherwise keep the first); exceptions fall to the catch
and become the error object.  The returned list records the `isOld`
flag of each scrape request issued. -/
def processSgUrl (attempt : Bool → AttemptOutcome) (url : String) :
    SgScrapeOutcome × List Bool :=
  match attempt false with
  | AttemptOutcome.raisedEx m => (SgScrapeOutcome.errorResult url m, [false])
  | AttemptOutcome.marker m => (SgScrapeOutcome.errorResult url m, [false])
  | AttemptOutcome.okData cd =>
    if (jsTrim cd.case_text).length = 0 then
      match attempt true with
      | AttemptOutcome.okData cd2 => (SgScrapeOutcome.data cd2 url, [false, true])
      | AttemptOutcome.marker _ => (SgScrapeOutcome.data cd url, [false, true])
      | AttemptOutcome.raisedEx m => (SgScrapeOutcome.errorResult url m, [false, true])
    else (SgScrapeOutcome.data cd url, [false])

/-- A scrape source whose plain response has blank case text and whose
`isOld=true` response carries the full payload. -/
def sgLegacyAttempt : Bool → AttemptOutcome :=
  fun isOld => if isOld then AttemptOutcome.okData cdRowX else AttemptOutcome.okData cdBlank

/-- A scrape source whose plain response has blank case text and whose
`isOld=true` request exhausts its retries (terminal marker). -/
def sgLegacyFailAttempt : Bool → AttemptOutcome :=
  fun isOld =>
    if isOld then AttemptOutcome.marker "Failed after multiple retries"
    else AttemptOutcome.okData cdBlank

end Scraper

open Scraper

/-- C1: the US Ingest Writer performs no pre-commit existence re-check —
the citation/case_no lookup in `insertCaseLaw` is commented out while
its doc comment still promises "Insert case law data into the
caselaw_us table if it doesn't already exist".  Draining two successful
scrape results from distinct locators that share the non-empty citation
"X" commits two `caselaw_us` rows with that citation: the second is a
second row, not a duplicate skip. -/
theorem c1_duplicate_citation_rows :
    ((drainBatch insAlwaysOk emptyStore
        [("https://caselaw.findlaw.com/a", ScrapedResult.success cdRowX),
         ("https://caselaw.findlaw.com/b", ScrapedResult.success cdRowY)]).cases.map
      (fun r => r.2.citation)) = ["X", "X"] := by
  rfl

/-- C2 counterexample: a locator dispatched to the Fetcher whose fetch
fails terminally yields *no* ledger entry: the drain loop of
`scrapFindLaws` skips `status === 'error'` results with `continue`, and
only `insertCaseLaw` ever writes `caselaw_scraping_urls`.  After a run
over the single dispatched locator, the ledger holds zero entries keyed
by it, not exactly one. -/
theorem c2_counterexample :
    (ledgerKeys (runCloudFlareBatch
        (fun _ => ScrapedResult.error "Failed after multiple retries")
        insAlwaysOk emptyStore ["https://caselaw.findlaw.com/c"]).ledger).count
      "https://caselaw.findlaw.com/c" = 0 := by
  rfl

/-- C4 counterexample: the US `insertCaseLaw` has no empty-content
guard: a scrape result whose `case_text` is whitespace-only is inserted
into `caselaw_us` — the row reaches the record table. -/
theorem c4_counterexample :
    ((insertCaseLawUS emptyStore cdBlank "https://caselaw.findlaw.com/d"
        (DbRes.ok ()) none none).2.cases.map (fun r => r.2.case_text)) = ["  "] ∧
    jsTrim "  " = "" := by
  exact ⟨rfl, rfl⟩

/-- C4 (amended): the empty-content guard lives only in the Singapore
Ingest Writer: there, a record whose `case_text` trims to length 0 is
never written (the store is unchanged), and when its citation is not
already present the outcome is the distinguishable empty-content skip.
The US caselaw writer performs no such check. -/
theorem c4_empty_guard_sg (st : Store) (cd : CaseData) (url : String)
    (insRes : DbRes Unit) (s e : Option String)
    (h : (jsTrim cd.case_text).length = 0) :
    (insertCaseLawSG st cd url insRes s e).2 = st ∧
    (checkIfCitationExists st cd.citation = false →
      (insertCaseLawSG st cd url insRes s e).1 = SgInsertResult.skippedEmpty) := by
  unfold insertCaseLawSG
  by_cases hdup : cd.citation ≠ "" ∧ checkIfCitationExists st cd.citation = true
  · refine ⟨by simp [hdup], fun hfalse => ?_⟩
    rw [hdup.2] at hfalse
    exact absurd hfalse (by simp)
  · refine ⟨by simp [hdup, h], fun _ => by simp [hdup, h]⟩

/-- Closed witness for `c4_empty_guard_sg` on a whitespace-only payload. -/
theorem c4_empty_guard_sg_witness :
    (jsTrim cdBlank.case_text).length = 0 ∧
    (insertCaseLawSG emptyStore cdBlank "https://w/1" (DbRes.ok ()) none none).2 = emptyStore ∧
    (insertCaseLawSG emptyStore cdBlank "https://w/1" (DbRes.ok ()) none none).1
      = SgInsertResult.skippedEmpty :=
  ⟨by decide,
   (c4_empty_guard_sg emptyStore cdBlank "https://w/1" (DbRes.ok ()) none none (by decide)).1,
   (c4_empty_guard_sg emptyStore cdBlank "https://w/1" (DbRes.ok ()) none none (by decide)).2
     (by decide)⟩

/-- C6 counterexample: when the Record write path fails (here the
success-ledger upsert returns an error, which is thrown) and the catch
block's own error-ledger upsert *also* fails, the caller sees only the
original failure: the caller-visible outcome is identical to the run in
which the secondary upsert succeeded — the secondary failure is
swallowed, not surfaced. -/
theorem c6_counterexample :
    (insertCaseLawUS emptyStore cdRowX "https://caselaw.findlaw.com/e" (DbRes.ok ())
        (some "ledger upsert failed") (some "ledger store down")).1
      = Except.error "ledger upsert failed" ∧
    (insertCaseLawUS emptyStore cdRowX "https://caselaw.findlaw.com/e" (DbRes.ok ())
        (some "ledger upsert failed") (some "ledger store down")).1
      = (insertCaseLawUS emptyStore cdRowX "https://caselaw.findlaw.com/e" (DbRes.ok ())
          (some "ledger upsert failed") none).1 := by
  exact ⟨rfl, rfl⟩

/-- C6 (amended): on a step-3 failure the US Ingest Writer does attempt
the error-ledger upsert even though the causing error is already known
— when that upsert succeeds the ledger holds the error row with the
failure's message — and it rethrows the *original* error to the caller
regardless of whether the ledger upsert succeeded; a failure of the
ledger upsert itself is discarded, not surfaced. -/
theorem c6_error_ledger_amended (st : Store) (cd : CaseData) (url e1 : String)
    (e2 : Option String) :
    (insertCaseLawUS st cd url (DbRes.ok ()) (some e1) e2).1 = Except.error e1 ∧
    (e2 = none →
      (insertCaseLawUS st cd url (DbRes.ok ()) (some e1) e2).2.ledger
        = upsertLedger st.ledger (errorEntry url e1)) := by
  refine ⟨rfl, ?_⟩
  rintro rfl
  rfl

/-- A url is a key of the upserted ledger iff it was a key before or is
the upserted row's key. -/
theorem mem_ledgerKeys_upsert (l : List LedgerEntry) (e : LedgerEntry) (u : String) :
    u ∈ ledgerKeys (upsertLedger l e) ↔ u ∈ ledgerKeys l ∨ u = e.url := by
  induction l with
  | nil => simp [upsertLedger, ledgerKeys]
  | cons x xs ih =>
    by_cases hx : x.url = e.url
    · simp only [upsertLedger, hx, if_pos, ledgerKeys, List.map_cons, List.mem_cons]
      tauto
    · simp only [upsertLedger, hx, if_neg, ledgerKeys, List.map_cons, List.mem_cons,
        not_false_iff]
      simp only [ledgerKeys] at ih
      rw [ih]
      tauto

/-- Upserting preserves uniqueness of the ledger's url keys. -/
theorem nodup_ledgerKeys_upsert (l : List LedgerEntry) (e : LedgerEntry)
    (h : (ledgerKeys l).Nodup) : (ledgerKeys (upsertLedger l e)).Nodup := by
  induction l with
  | nil => simp [upsertLedger, ledgerKeys]
  | cons x xs ih =>
    simp only [ledgerKeys, List.map_cons, List.nodup_cons] at h
    obtain ⟨hnx, hnd⟩ := h
    by_cases hx : x.url = e.url
    · simp only [upsertLedger, hx, if_pos, ledgerKeys, List.map_cons, List.nodup_cons]
      exact ⟨by rw [← hx]; simpa [ledgerKeys] using hnx, by simpa [ledgerKeys] using hnd⟩
    · simp only [upsertLedger, hx, if_neg, ledgerKeys, List.map_cons, List.nodup_cons,
        not_false_iff]
      refine ⟨?_, by simpa [ledgerKeys] using ih (by simpa [ledgerKeys] using hnd)⟩
      intro hmem
      rcases (mem_ledgerKeys_upsert xs e x.url).mp (by simpa [ledgerKeys] using hmem) with
        h1 | h2
      · exact hnx (by simpa [ledgerKeys] using h1)
      · exact hx h2

/-- Whatever the record-insert outcome, `insertCaseLaw` (US) performs
exactly one ledger upsert keyed by the source url, provided the ledger
store accepts it. -/
theorem insertCaseLawUS_ledger (st : Store) (cd : CaseData) (u : String)
    (insRes : DbRes Unit) :
    ∃ e : LedgerEntry, e.url = u ∧
      (insertCaseLawUS st cd u insRes none none).2.ledger = upsertLedger st.ledger e := by
  cases insRes with
  | err m => exact ⟨errorEntry u nullIdMessage, rfl, rfl⟩
  | ok _ => exact ⟨successEntry u st.nextId, rfl, rfl⟩

/-- Ledger keys after draining a batch of results: the keys stay
unique, and a url is present afterwards iff it was present before or
some drained success result carries it. -/
theorem drainBatch_ledgerKeys (insO : String → DbRes Unit)
    (rs : List (String × ScrapedResult)) (st : Store)
    (h : (ledgerKeys st.ledger).Nodup) :
    (ledgerKeys (drainBatch insO st rs).ledger).Nodup ∧
    ∀ u, u ∈ ledgerKeys (drainBatch insO st rs).ledger ↔
      (u ∈ ledgerKeys st.ledger ∨ ∃ cd, (u, ScrapedResult.success cd) ∈ rs) := by
  induction rs generalizing st with
  | nil =>
    refine ⟨h, fun u => ?_⟩
    simp [drainBatch]
  | cons p rest ih =>
    obtain ⟨v, r⟩ := p
    cases r with
    | error m =>
      have hr := ih st h
      refine ⟨hr.1, fun u => ?_⟩
      simp only [drainBatch]
      rw [hr.2 u]
      simp
    | success cd0 =>
      obtain ⟨e, heu, hel⟩ := insertCaseLawUS_ledger st cd0 v (insO v)
      have hnodup2 : (ledgerKeys (insertCaseLawUS st cd0 v (insO v) none none).2.ledger).Nodup := by
        rw [hel]
        exact nodup_ledgerKeys_upsert _ _ h
      have hr := ih _ hnodup2
      refine ⟨hr.1, fun u => ?_⟩
      simp only [drainBatch]
      rw [hr.2 u]
      have hmem : u ∈ ledgerKeys (insertCaseLawUS st cd0 v (insO v) none none).2.ledger ↔
          u ∈ ledgerKeys st.ledger ∨ u = v := by
        rw [hel, mem_ledgerKeys_upsert, heu]
      rw [hmem]
      simp only [List.mem_cons, Prod.mk.injEq, ScrapedResult.success.injEq]
      constructor
      · rintro ((h1 | h1) | ⟨cd, h2⟩)
        · exact Or.inl h1
        · exact Or.inr ⟨cd0, Or.inl ⟨h1, rfl⟩⟩
        · exact Or.inr ⟨cd, Or.inr h2⟩
      · rintro (h1 | ⟨cd, ⟨h2, _⟩ | h2⟩)
        · exact Or.inl (Or.inl h1)
        · exact Or.inl (Or.inr h2)
        · exact Or.inr ⟨cd, h2⟩

/-- A url is carried by a success pair of the dispatched batch iff it
was dispatched and its fetch succeeded. -/
theorem mem_map_success (fetchO : String → ScrapedResult) (urls : List String) (u : String) :
    (∃ cd, (u, ScrapedResult.success cd) ∈ urls.map (fun v => (v, fetchO v))) ↔
      (u ∈ urls ∧ (fetchO u).isSuccess = true) := by
  constructor
  · rintro ⟨cd, hmem⟩
    simp only [List.mem_map, Prod.mk.injEq] at hmem
    obtain ⟨v, hv, h1, h2⟩ := hmem
    subst h1
    rw [h2]
    exact ⟨hv, rfl⟩
  · rintro ⟨hu, hs⟩
    cases hfo : fetchO u with
    | success cd =>
      refine ⟨cd, ?_⟩
      simp only [List.mem_map, Prod.mk.injEq]
      exact ⟨u, hu, rfl, hfo⟩
    | error m =>
      rw [hfo] at hs
      simp [ScrapedResult.isSuccess] at hs

/-- C2 (amended): after one dispatch+drain pass over a batch of
locators (ledger store available, record inserts arbitrary), the
url-keyed ledger still has unique keys, and a locator has exactly one
ledger entry iff it already had one or it was dispatched *and its
scrape succeeded*: every locator whose result reaches the Ingest Writer
yields exactly one entry (status success or error), while a locator
whose fetch fails terminally is skipped by the drain loop and yields no
entry at all. -/
theorem c2_ledger_after_run (fetchO : String → ScrapedResult) (insO : String → DbRes Unit)
    (st : Store) (urls : List String) (h : (ledgerKeys st.ledger).Nodup) :
    (ledgerKeys (runCloudFlareBatch fetchO insO st urls).ledger).Nodup ∧
    ∀ u, u ∈ ledgerKeys (runCloudFlareBatch fetchO insO st urls).ledger ↔
      (u ∈ ledgerKeys st.ledger ∨ (u ∈ urls ∧ (fetchO u).isSuccess = true)) := by
  have hd := drainBatch_ledgerKeys insO (urls.map fun u => (u, fetchO u)) st h
  refine ⟨hd.1, fun u => ?_⟩
  rw [show runCloudFlareBatch fetchO insO st urls
      = drainBatch insO st (urls.map fun u => (u, fetchO u)) from rfl]
  rw [hd.2 u, mem_map_success]

/-- Closed witness for `c2_ledger_after_run`: a single dispatched
locator whose scrape succeeds ends with a ledger entry. -/
theorem c2_ledger_after_run_witness :
    (ledgerKeys emptyStore.ledger).Nodup ∧
    ("https://w/3" ∈
        ledgerKeys (runCloudFlareBatch fetchAlwaysOk insAlwaysOk emptyStore ["https://w/3"]).ledger ↔
      ("https://w/3" ∈ ledgerKeys emptyStore.ledger ∨
        ("https://w/3" ∈ ["https://w/3"] ∧ (fetchAlwaysOk "https://w/3").isSuccess = true))) :=
  ⟨List.nodup_nil,
   (c2_ledger_after_run fetchAlwaysOk insAlwaysOk emptyStore ["https://w/3"]
     List.nodup_nil).2 "https://w/3"⟩

/-- Closed witness for `c6_error_ledger_amended` at a concrete failing write. -/
theorem c6_error_ledger_amended_witness :
    (insertCaseLawUS emptyStore cdRowX "https://w/2" (DbRes.ok ()) (some "boom") none).1
      = Except.error "boom" ∧
    (insertCaseLawUS emptyStore cdRowX "https://w/2" (DbRes.ok ()) (some "boom") none).2.ledger
      = upsertLedger emptyStore.ledger (errorEntry "https://w/2" "boom") :=
  ⟨(c6_error_ledger_amended emptyStore cdRowX "https://w/2" "boom" none).1,
   (c6_error_ledger_amended emptyStore cdRowX "https://w/2" "boom" none).2 rfl⟩

/-- C5 counterexample: the claim says the Fetcher retries on network
exception and, after exhausting retries, returns a terminal-failure
marker instead of raising.  On an oracle whose first `fetch` throws,
`fetchWithRetry` raises the exception after a single attempt — no
retry, no sleep, no marker — because the loop body has no try/catch. -/
theorem c5_exception_counterexample :
    Scraper.fetchWithRetry Scraper.throwingOracle "https://x.test/a"
      = (Except.error "ECONNRESET", [Scraper.FetchEv.attempt 0]) := by
  rfl

/-- C5 (amended): for every URL and every fetch oracle whose first five
attempts all yield non-success HTTP responses (and none of them throws),
`fetchWithRetry` at its defaults performs exactly 5 attempts separated
by fixed 2000 ms sleeps (no exponential backoff) and returns — rather
than raises — the terminal-failure marker carrying the URL and the
human-readable reason "Failed after multiple retries". -/
theorem c5_retry_policy (oracle : Nat → Scraper.FetchOutcome) (url : String)
    (h : ∀ i, i < 5 → ∃ s, oracle i = Scraper.FetchOutcome.resp false s) :
    Scraper.fetchWithRetry oracle url
      = (Except.ok (Scraper.FetchResult.marker url "error" "Failed after multiple retries"),
         [Scraper.FetchEv.attempt 0, Scraper.FetchEv.sleepFor 2000,
          Scraper.FetchEv.attempt 1, Scraper.FetchEv.sleepFor 2000,
          Scraper.FetchEv.attempt 2, Scraper.FetchEv.sleepFor 2000,
          Scraper.FetchEv.attempt 3, Scraper.FetchEv.sleepFor 2000,
          Scraper.FetchEv.attempt 4]) := by
  obtain ⟨s0, h0⟩ := h 0 (by omega)
  obtain ⟨s1, h1⟩ := h 1 (by omega)
  obtain ⟨s2, h2⟩ := h 2 (by omega)
  obtain ⟨s3, h3⟩ := h 3 (by omega)
  obtain ⟨s4, h4⟩ := h 4 (by omega)
  simp [Scraper.fetchWithRetry, Scraper.fetchWithRetryWith, Scraper.fetchWithRetryGo,
    h0, h1, h2, h3, h4]

/-- Closed witness for `c5_retry_policy` at a concrete always-503 oracle. -/
theorem c5_retry_policy_witness :
    (∀ i, i < 5 → ∃ s, (fun _ => Scraper.FetchOutcome.resp false 503) i
        = Scraper.FetchOutcome.resp false s) ∧
    Scraper.fetchWithRetry (fun _ => Scraper.FetchOutcome.resp false 503) "https://x.test/b"
      = (Except.ok (Scraper.FetchResult.marker "https://x.test/b" "error"
            "Failed after multiple retries"),
         [Scraper.FetchEv.attempt 0, Scraper.FetchEv.sleepFor 2000,
          Scraper.FetchEv.attempt 1, Scraper.FetchEv.sleepFor 2000,
          Scraper.FetchEv.attempt 2, Scraper.FetchEv.sleepFor 2000,
          Scraper.FetchEv.attempt 3, Scraper.FetchEv.sleepFor 2000,
          Scraper.FetchEv.attempt 4]) :=
  ⟨fun i _ => ⟨503, rfl⟩,
   c5_retry_policy (fun _ => Scraper.FetchOutcome.resp false 503) "https://x.test/b"
     (fun i _ => ⟨503, rfl⟩)⟩

/-- C3: the second-run idempotence argument fails on the Singapore
pipeline: `checkIfUrlProcessed` there returns `false` unconditionally
(its real ledger lookup is dead code below the first `return`), so the
pre-fetch checkpoint never resolves any locator as already-processed —
the filter phase keeps every url — and re-running the writer over a
case whose citation field is empty (the only other dedup key) inserts a
second `caselaw_singapore` row. -/
theorem c3_processed_check_is_stub :
    (∀ (st : Store) (url : String), checkIfUrlProcessedSG st url = false) ∧
    (∀ (st : Store) (urls : List String), urlsToProcessSG st urls = urls) ∧
    ((insertCaseLawSG run1Store cdNoCitation "https://www.elitigation.sg/gd/s/1"
        (DbRes.ok ()) none none).2.cases.map (fun r => r.2.case_no)) = ["No 4", "No 4"] := by
  refine ⟨fun st url => rfl, fun st urls => ?_, rfl⟩
  induction urls with
  | nil => rfl
  | cons a l ih =>
    simp only [urlsToProcessSG, checkIfUrlProcessedSG, List.map_cons, List.filter_cons] at ih ⊢
    simp only [Bool.not_false, if_pos, List.map_cons]
    rw [ih]

/-- C7: at the pre-fetch checkpoint a store lookup error degrades to
"assume not existing": whenever the existence query comes back with an
error (any code; the client nulls `data` alongside), both
`checkIfUrlProcessed` (`src/us/caselaw_index.js`) and
`checkSectionExistsByUrl` (`src/us/acts_index.js`) return `false`
instead of raising or reporting the url as processed, so the locator is
processed. -/
theorem c7_lookup_error_degrades (r : SbMaybeSingle)
    (hc : r.error.isSome = true) (hd : r.data = none) :
    checkIfUrlProcessedUS r = false ∧ checkSectionExistsByUrl r = false := by
  obtain ⟨code, hcode⟩ := Option.isSome_iff_exists.mp hc
  by_cases hpg : code = PGRST116
  · subst hpg
    simp [checkIfUrlProcessedUS, checkSectionExistsByUrl, checkSectionExistsByUrlBody,
      hcode, hd]
  · simp [checkIfUrlProcessedUS, checkSectionExistsByUrl, checkSectionExistsByUrlBody,
      hcode, hpg]

/-- Closed witness for `c7_lookup_error_degrades` at a concrete 500-class
lookup failure. -/
theorem c7_lookup_error_degrades_witness :
    checkIfUrlProcessedUS ⟨none, some "PGRST301"⟩ = false ∧
    checkSectionExistsByUrl ⟨none, some "PGRST301"⟩ = false :=
  c7_lookup_error_degrades ⟨none, some "PGRST301"⟩ rfl rfl

/-- C8 counterexample: with `filterBatchSize = 2` on a 5-locator page
(nothing processed yet, `cloudFlareBatchSize = 100`), the dedup-filter
phase does *not* complete before Fetcher dispatch: the page is handled
filter-batch by filter-batch, so only the first 2 existence checks —
not 3 batches totalling 5 — precede the first Fetcher call, and the
full trace interleaves checks and dispatches. -/
theorem c8_counterexample :
    scrapFindLawsPage (fun _ => false) 2 100 fiveUrls
      = [PEvent.check "u1", PEvent.check "u2", PEvent.dispatch "u1", PEvent.dispatch "u2",
         PEvent.check "u3", PEvent.check "u4", PEvent.dispatch "u3", PEvent.dispatch "u4",
         PEvent.check "u5", PEvent.dispatch "u5"] ∧
    ((scrapFindLawsPage (fun _ => false) 2 100 fiveUrls).takeWhile PEvent.isCheck).length
      = 2 := by
  exact ⟨rfl, rfl⟩

/-- A url list no longer than the batch size forms a single batch. -/
theorem chunks_eq_single (n : Nat) (l : List String) (h1 : 0 < n) (h2 : l.length ≤ n)
    (h3 : l ≠ []) : chunks n l = [l] := by
  obtain ⟨a, t, rfl⟩ := List.exists_cons_of_ne_nil h3
  have hn : n ≠ 0 := Nat.pos_iff_ne_zero.mp h1
  simp only [chunks, hn, if_neg, List.length_cons]
  rw [show chunksGo n (t.length + 1) (a :: t)
      = (a :: t).take n :: chunksGo n t.length ((a :: t).drop n) from rfl]
  rw [List.take_of_length_le h2, List.drop_eq_nil_of_le h2]
  cases t <;> rfl

/-- C8 (amended): within each *filter batch*, all existence checks
complete before any Fetcher dispatch for that batch, but the page is
processed filter-batch by filter-batch, so checks of a later batch come
after dispatches of an earlier one.  Only when `filterBatchSize` covers
the whole page — as the default 10000 usually does — does the page's
entire dedup-filter phase precede its first Fetcher call: the trace is
then all the page's checks followed by the dispatch batches of the
surviving urls. -/
theorem c8_filter_before_dispatch (proc : String → Bool) (fB cB : Nat)
    (urls : List String) (h1 : 0 < fB) (h2 : urls.length ≤ fB) :
    scrapFindLawsPage proc fB cB urls
      = urls.map PEvent.check ++
        ((chunks cB (urls.filter (fun u => !(proc u)))).map
          (fun b => b.map PEvent.dispatch)).flatten := by
  by_cases h3 : urls = []
  · subst h3
    have hn : fB ≠ 0 := Nat.pos_iff_ne_zero.mp h1
    simp [scrapFindLawsPage, chunks, hn, chunksGo]
  · rw [scrapFindLawsPage, chunks_eq_single fB urls h1 h2 h3]
    simp

/-- Closed witness for `c8_filter_before_dispatch` at the default
`filterBatchSize = 10000` on the 5-locator page. -/
theorem c8_filter_before_dispatch_witness :
    scrapFindLawsPage (fun _ => false) 10000 100 fiveUrls
      = fiveUrls.map PEvent.check ++
        ((chunks 100 (fiveUrls.filter (fun u => !((fun _ => false) u)))).map
          (fun b => b.map PEvent.dispatch)).flatten :=
  c8_filter_before_dispatch (fun _ => false) 10000 100 fiveUrls (by omega) (by decide)

/-- Every page index the pagination loop requests is at most `maxPages`. -/
theorem paginateGo_le (o : Nat → PageFetch) (m : Nat) :
    ∀ (fuel s j : Nat), j ∈ (paginateGo o m fuel s).1 → j ≤ m := by
  intro fuel
  induction fuel with
  | zero =>
    intro s j hj
    simp [paginateGo] at hj
  | succ k ih =>
    intro s j hj
    by_cases hm : m < s
    · simp [paginateGo, hm] at hj
    · rcases ho : o s with _ | urls
      · simp [paginateGo, hm, ho] at hj
        omega
      · cases urls with
        | nil =>
          simp [paginateGo, hm, ho] at hj
          omega
        | cons a t =>
          simp [paginateGo, hm, ho] at hj
          rcases hj with rfl | hj
          · omega
          · exact ih (s + 1) j hj

/-- C9: when the listing page at the current index returns zero
locators (and the index is within `maxPages`), `scrapeSingaporeCaseLaws`
stops pagination immediately — the patience window is one empty page —
with the exhausted stop, having requested no further page index; and
for every listing source the loop never requests an index beyond the
configured `maxPages`. -/
theorem c9_pagination_stops (oracle : Nat → PageFetch) (maxPages idx : Nat)
    (h1 : idx ≤ maxPages) (h2 : oracle idx = PageFetch.ok []) :
    scrapeSingaporePagination oracle maxPages idx = ([idx], StopReason.exhausted) ∧
    ∀ (o : Nat → PageFetch) (s j : Nat),
      j ∈ (scrapeSingaporePagination o maxPages s).1 → j ≤ maxPages := by
  constructor
  · have hm : ¬ maxPages < idx := Nat.not_lt.mpr h1
    rw [scrapeSingaporePagination]
    rcases hf : maxPages + 1 - idx with _ | k
    · omega
    · simp [paginateGo, hm, h2]
  · intro o s j hj
    exact paginateGo_le o maxPages (maxPages + 1 - s) s j hj

/-- Closed witness for `c9_pagination_stops`: the source empty at index
340 under `CONFIG.maxPages = 100000000` stops at once with `exhausted`. -/
theorem c9_pagination_stops_witness :
    scrapeSingaporePagination sgEmptyAt340 100000000 340 = ([340], StopReason.exhausted) :=
  (c9_pagination_stops sgEmptyAt340 100000000 340 (by omega) rfl).1

/-- C10: when the primary extraction succeeds but its `case_text` is
empty or whitespace-only, the Singapore driver issues exactly one
second-pass request for the same locator with `isOld=true` and then
gives up: whatever the legacy attempt's outcome — ok response, terminal
retry marker, or propagated exception — the request trace is exactly
plain-then-legacy, nothing more; and when that one retry succeeds, its
data is the result handed on for ingestion. -/
theorem c10_legacy_retry (attempt : Bool → AttemptOutcome) (url : String)
    (cd : CaseData)
    (h1 : attempt false = AttemptOutcome.okData cd)
    (h2 : (jsTrim cd.case_text).length = 0) :
    (processSgUrl attempt url).2 = [false, true] ∧
    (∀ cd2, attempt true = AttemptOutcome.okData cd2 →
      (processSgUrl attempt url).1 = SgScrapeOutcome.data cd2 url) := by
  constructor
  · cases h3 : attempt true <;> simp [processSgUrl, h1, h2, h3]
  · intro cd2 h3
    simp [processSgUrl, h1, h2, h3]

/-- Closed witness for `c10_legacy_retry`: on a source whose plain
response is blank, the succeeding legacy attempt yields `cdRowX` after
the two-request trace, and the failing legacy attempt (terminal marker)
still issues exactly the two requests and no third. -/
theorem c10_legacy_retry_witness :
    (processSgUrl sgLegacyAttempt "/gd/s/2025_SGHC_27").2 = [false, true] ∧
    (processSgUrl sgLegacyAttempt "/gd/s/2025_SGHC_27").1
      = SgScrapeOutcome.data cdRowX "/gd/s/2025_SGHC_27" ∧
    (processSgUrl sgLegacyFailAttempt "/gd/s/2025_SGHC_27").2 = [false, true] :=
  ⟨(c10_legacy_retry sgLegacyAttempt "/gd/s/2025_SGHC_27" cdBlank rfl (by decide)).1,
   (c10_legacy_retry sgLegacyAttempt "/gd/s/2025_SGHC_27" cdBlank rfl (by decide)).2
     cdRowX rfl,
   (c10_legacy_retry sgLegacyFailAttempt "/gd/s/2025_SGHC_27" cdBlank rfl (by decide)).1⟩
